import Mathlib

/-!
Shallow embedding of the `serverasistant` repository: the service-lifecycle
controller (`src/docker_manager.py`), the reimplemented core controller
(`src/src/core/docker_manager.py`), the configuration round-trip
(`src/src/core/config_manager.py`) and the health monitor (`src/monitor.py`).

Python dictionaries are modelled as association lists with first-occurrence
lookup and Python insertion-order update semantics.  Machine-level details
that no claim depends on (float arithmetic in the container-stats path) are
summarised by oracle fields of the environment records, as noted at each
definition.
-/

namespace ServerAssistant

/-! ### Python `dict` as an association list -/

/-- Lookup of a key in a Python dict (first occurrence). -/
def dlookup {α : Type} : List (String × α) → String → Option α
  | [], _ => none
  | (k', v) :: rest, k => if k' = k then some v else dlookup rest k

/-- `d[k] = v` on a Python dict: update the existing entry in place,
otherwise append the new binding at the end (insertion order). -/
def dinsert {α : Type} : List (String × α) → String → α → List (String × α)
  | [], k, v => [(k, v)]
  | (k', v') :: rest, k, v =>
      if k' = k then (k, v) :: rest else (k', v') :: dinsert rest k v

/-- `del d[k]` on a Python dict. -/
def derase {α : Type} (m : List (String × α)) (k : String) : List (String × α) :=
  m.filter (fun kv => kv.1 != k)

/-- Key list of a dict. -/
def dkeys {α : Type} (m : List (String × α)) : List String :=
  m.map Prod.fst

theorem dlookup_dinsert_self {α : Type} (m : List (String × α)) (k : String) (v : α) :
    dlookup (dinsert m k v) k = some v := by
  induction m with
  | nil => simp [dinsert, dlookup]
  | cons kv rest ih =>
      by_cases h : kv.1 = k
      · simp [dinsert, dlookup, h]
      · simp [dinsert, dlookup, h, ih]

theorem dlookup_dinsert_ne {α : Type} (m : List (String × α)) (k k' : String) (v : α)
    (hne : k ≠ k') : dlookup (dinsert m k v) k' = dlookup m k' := by
  induction m with
  | nil => simp [dinsert, dlookup, hne]
  | cons kv rest ih =>
      by_cases h : kv.1 = k
      · simp [dinsert, dlookup, h, hne, Ne.symm hne]
      · simp [dinsert, dlookup, h, ih]

theorem dlookup_derase_self {α : Type} (m : List (String × α)) (k : String) :
    dlookup (derase m k) k = none := by
  induction m with
  | nil => simp [derase, dlookup]
  | cons kv rest ih =>
      by_cases h : kv.1 = k
      · simpa [derase, dlookup, h] using ih
      · simpa [derase, dlookup, h] using ih

theorem dkeys_dinsert_of_not_mem {α : Type} (m : List (String × α)) (k : String) (v : α)
    (hk : k ∉ dkeys m) : dkeys (dinsert m k v) = dkeys m ++ [k] := by
  induction m with
  | nil => simp [dinsert, dkeys]
  | cons kv rest ih =>
      simp only [dkeys, List.map_cons, List.mem_cons] at hk
      push_neg at hk
      have h1 : kv.1 ≠ k := fun h => hk.1 h.symm
      simp [dinsert, dkeys, h1]
      exact ih hk.2

/-! ### A model of Python JSON values (output of `json.loads`) -/

inductive PyJson where
  | jnull : PyJson
  | jbool : Bool → PyJson
  | jnum : Int → PyJson
  | jstr : String → PyJson
  | jarr : List PyJson → PyJson
  | jobj : List (String × PyJson) → PyJson

/-- Python truthiness of a JSON value (`if not containers:`). -/
def PyJson.truthy : PyJson → Bool
  | .jnull => false
  | .jbool b => b
  | .jnum n => n != 0
  | .jstr s => !s.isEmpty
  | .jarr xs => !xs.isEmpty
  | .jobj kvs => !kvs.isEmpty

/-- `obj.get(key, default)` restricted to string values: the services'
status fields (`State`, `Health`, `Ports`) are strings in practice; a
non-string value falls back to the default in this model. -/
def jgetStr (kvs : List (String × PyJson)) (key default : String) : String :=
  match dlookup kvs key with
  | some (.jstr s) => s
  | _ => default

/-! ### Legacy manager: `src/docker_manager.py` (linux platform,
`_normalize_path` is the identity there) -/

namespace Legacy

/-- `ServiceStatus` dataclass of `src/docker_manager.py`.  `cpu_usage` is a
float in the source; no claim inspects its value, so it is modelled as an
integer percentage. -/
structure ServiceStatus where
  name : String
  status : String
  container_id : Option String := none
  port : Option String := none
  health : String := "unknown"
  uptime : Option String := none
  memory_usage : Option String := none
  cpu_usage : Option Int := none
deriving DecidableEq, Repr

/-- One entry of `config['services']`: the JSON dict fields the manager
reads.  `enabled` is `Option Bool` because the source uses
`service_config.get('enabled', True)`. -/
structure SvcConfig where
  name : String
  type : String
  path : String
  compose_file : String := "docker-compose.yml"
  enabled : Option Bool := none
  services : Option (List String) := none
  dockerfile : String := "Dockerfile"
deriving DecidableEq, Repr

/-- A command line handed to `_run_command` (argv list on linux). -/
def Cmd := List String
deriving DecidableEq, Repr

/-- Result of `subprocess.run` inside `_run_command`. -/
structure CmdResult where
  returncode : Int
  stdout : String := ""
  stderr : String := ""
deriving DecidableEq, Repr

/-- Values stored in `self.running_services`. -/
inductive TrackInfo where
  | container : String → TrackInfo
  | compose : String → String → List String → TrackInfo
deriving DecidableEq, Repr

/-- Container facts used by `_get_dockerfile_status`.  The memory/CPU
percentages the source computes from the stats API with float arithmetic
are summarised here as pre-rendered fields, since no claim depends on the
arithmetic. -/
structure ContainerInfo where
  status : String
  id : String
  health : String
  hostPort : Option String := none
  uptime : String := "N/A"
  memPercent : String := "0.0%"
  cpuPercent : Int := 0
deriving DecidableEq, Repr

/-- External world of the legacy manager: filesystem, subprocesses
(`_run_command` returns `none` when the spawn itself raised), `json.loads`
(`none` = `JSONDecodeError`), and the docker SDK calls of the
dockerfile-type branches. -/
structure Env where
  pathExists : String → Bool
  run : Cmd → Option CmdResult
  jsonLoads : String → Option PyJson
  composeCmd : String := "docker-compose"
  buildOk : String → Bool := fun _ => true
  runContainer : String → Option String := fun _ => none
  stopContainerOk : String → Bool := fun _ => true
  getContainer : String → Option ContainerInfo := fun _ => none
  inspectRaises : String → Bool := fun _ => false

/-- Outcome of a lifecycle operation: its boolean result, the updated
`running_services` dict, every command handed to the Command Runner, the
targets of every `os.chdir` call in order, and every `time.sleep` call. -/
structure OpResult where
  ok : Bool
  tracked : List (String × TrackInfo)
  invoked : List Cmd
  chdirs : List String
  slept : List Nat := []
deriving Repr

/-- `DockerManager._get_service_config`: first config entry with the name. -/
def get_service_config : List SvcConfig → String → Option SvcConfig
  | [], _ => none
  | s :: rest, n => if s.name = n then some s else get_service_config rest n

/-- The argv assembled for `compose up` (line 309-311): `services` are
appended only when the key is present in the config. -/
def compose_up_cmd (env : Env) (s : SvcConfig) : Cmd :=
  [env.composeCmd, "-f", s.compose_file, "up", "-d"] ++ s.services.getD []

/-- The argv assembled for `compose down`. -/
def compose_down_cmd (env : Env) (s : SvcConfig) : Cmd :=
  [env.composeCmd, "-f", s.compose_file, "down"]

/-- The argv assembled for `compose ps --format json`. -/
def compose_ps_cmd (env : Env) (s : SvcConfig) : Cmd :=
  [env.composeCmd, "-f", s.compose_file, "ps", "--format", "json"]

/-- `DockerManager._start_compose_service` (lines 287-346).  `cwd0` is the
process working directory when the call begins; the `chdirs` trace records
each `os.chdir` the code performs. -/
def start_compose_service (env : Env) (s : SvcConfig)
    (tracked : List (String × TrackInfo)) (cwd0 : String) : OpResult :=
  if !env.pathExists s.path then
    { ok := false, tracked := tracked, invoked := [], chdirs := [] }
  else if !env.pathExists (s.path ++ "/" ++ s.compose_file) then
    { ok := false, tracked := tracked, invoked := [], chdirs := [] }
  else
    match env.run (compose_up_cmd env s) with
    | none =>
        -- `_run_command` re-raised; the generic handler restores the cwd
        { ok := false, tracked := tracked, invoked := [compose_up_cmd env s],
          chdirs := [s.path, cwd0] }
    | some res =>
        if res.returncode = 0 then
          { ok := true,
            tracked := dinsert tracked s.name
              (.compose s.path s.compose_file (s.services.getD [])),
            invoked := [compose_up_cmd env s], chdirs := [s.path, cwd0] }
        else
          { ok := false, tracked := tracked, invoked := [compose_up_cmd env s],
            chdirs := [s.path, cwd0] }

/-- `DockerManager._start_dockerfile_service`: build and run through the
docker SDK — the Command Runner is never used on this branch. -/
def start_dockerfile_service (env : Env) (s : SvcConfig)
    (tracked : List (String × TrackInfo)) : OpResult :=
  if !env.pathExists s.path then
    { ok := false, tracked := tracked, invoked := [], chdirs := [] }
  else if !env.buildOk s.name then
    { ok := false, tracked := tracked, invoked := [], chdirs := [] }
  else
    match env.runContainer s.name with
    | none => { ok := false, tracked := tracked, invoked := [], chdirs := [] }
    | some cid =>
        { ok := true, tracked := dinsert tracked s.name (.container cid),
          invoked := [], chdirs := [] }

/-- `DockerManager.start_service` (lines 195-216). -/
def start_service (env : Env) (config : List SvcConfig)
    (tracked : List (String × TrackInfo)) (cwd0 : String) (name : String) :
    OpResult :=
  match get_service_config config name with
  | none => { ok := false, tracked := tracked, invoked := [], chdirs := [] }
  | some s =>
      if !(s.enabled.getD true) then
        { ok := false, tracked := tracked, invoked := [], chdirs := [] }
      else if s.type = "dockerfile" then
        start_dockerfile_service env s tracked
      else if s.type = "docker-compose" then
        start_compose_service env s tracked cwd0
      else
        { ok := false, tracked := tracked, invoked := [], chdirs := [] }

/-- `DockerManager._stop_dockerfile_service`: stopping an untracked
service returns `True` without touching the runtime. -/
def stop_dockerfile_service (env : Env) (name : String)
    (tracked : List (String × TrackInfo)) : OpResult :=
  match dlookup tracked name with
  | none => { ok := true, tracked := tracked, invoked := [], chdirs := [] }
  | some _ =>
      if env.stopContainerOk name then
        { ok := true, tracked := derase tracked name, invoked := [], chdirs := [] }
      else
        { ok := false, tracked := tracked, invoked := [], chdirs := [] }

/-- `DockerManager._stop_compose_service` (lines 384-423).  There is no
existence check before `os.chdir(service_path)`: a missing directory makes
the chdir raise, and the handler immediately restores the original cwd. -/
def stop_compose_service (env : Env) (s : SvcConfig)
    (tracked : List (String × TrackInfo)) (cwd0 : String) : OpResult :=
  if !env.pathExists s.path then
    { ok := false, tracked := tracked, invoked := [], chdirs := [cwd0] }
  else
    match env.run (compose_down_cmd env s) with
    | none =>
        { ok := false, tracked := tracked, invoked := [compose_down_cmd env s],
          chdirs := [s.path, cwd0] }
    | some res =>
        if res.returncode = 0 then
          { ok := true, tracked := derase tracked s.name,
            invoked := [compose_down_cmd env s], chdirs := [s.path, cwd0] }
        else
          { ok := false, tracked := tracked,
            invoked := [compose_down_cmd env s], chdirs := [s.path, cwd0] }

/-- `DockerManager.stop_service`. -/
def stop_service (env : Env) (config : List SvcConfig)
    (tracked : List (String × TrackInfo)) (cwd0 : String) (name : String) :
    OpResult :=
  match get_service_config config name with
  | none => { ok := false, tracked := tracked, invoked := [], chdirs := [] }
  | some s =>
      if s.type = "dockerfile" then
        stop_dockerfile_service env name tracked
      else if s.type = "docker-compose" then
        stop_compose_service env s tracked cwd0
      else
        { ok := false, tracked := tracked, invoked := [], chdirs := [] }

/-- `DockerManager.restart_service` (lines 425-431): stop, and only on
success sleep 2 seconds and start. -/
def restart_service (env : Env) (config : List SvcConfig)
    (tracked : List (String × TrackInfo)) (cwd0 : String) (name : String) :
    OpResult :=
  let stopR := stop_service env config tracked cwd0 name
  if stopR.ok then
    let startR := start_service env config stopR.tracked cwd0 name
    { ok := startR.ok, tracked := startR.tracked,
      invoked := stopR.invoked ++ startR.invoked,
      chdirs := stopR.chdirs ++ startR.chdirs,
      slept := [2] }
  else
    { stopR with ok := false }

/-- Result of a status query: the returned value (`none` = Python `None`),
plus the `os.chdir` trace and the commands handed to the Command Runner. -/
structure StatusResult where
  st : Option ServiceStatus
  chdirs : List String := []
  invoked : List Cmd := []
deriving Repr

/-- `DockerManager._get_dockerfile_status`: `docker.errors.NotFound` maps
to a `not_found` status; any other SDK error is swallowed into `None`. -/
def get_dockerfile_status (env : Env) (name : String) : StatusResult :=
  match env.getContainer name with
  | none => { st := some { name := name, status := "not_found", health := "unknown" } }
  | some c =>
      if env.inspectRaises name then { st := none }
      else
        { st := some
            { name := name, status := c.status,
              container_id := some (c.id.take 12),
              port := some (c.hostPort.getD "N/A"),
              health := c.health, uptime := some c.uptime,
              memory_usage := some c.memPercent,
              cpu_usage := some c.cpuPercent } }

/-- Build the `ServiceStatus` from the first `docker-compose ps` JSON
entry (lines 527-535). -/
def compose_status_of (kvs : List (String × PyJson)) (name : String) :
    ServiceStatus :=
  { name := name,
    status := jgetStr kvs "State" "unknown",
    container_id := some
      (match dlookup kvs "ID" with
       | some (.jstr s) => if s.isEmpty then "N/A" else s.take 12
       | _ => "N/A"),
    port := some (jgetStr kvs "Ports" "N/A"),
    health := jgetStr kvs "Health" "unknown",
    uptime := some "N/A" }

/-- `DockerManager._get_compose_status` (lines 489-548).  A
`JSONDecodeError` from `json.loads`, and any shape surprise afterwards
(`containers[0]` on a dict, `.get` on a non-dict), land in the generic
`except` handler which restores the cwd and returns `None`. -/
def get_compose_status (env : Env) (s : SvcConfig) (cwd0 : String) :
    StatusResult :=
  if !env.pathExists s.path then
    -- `os.chdir(service_path)` raised; handler restores the original cwd
    { st := none, chdirs := [cwd0], invoked := [] }
  else
    match env.run (compose_ps_cmd env s) with
    | none =>
        { st := none, chdirs := [s.path, cwd0], invoked := [compose_ps_cmd env s] }
    | some res =>
        if res.returncode = 0 then
          match env.jsonLoads res.stdout with
          | none =>
              { st := none, chdirs := [s.path, cwd0],
                invoked := [compose_ps_cmd env s] }
          | some j =>
              if !j.truthy then
                { st := some { name := s.name, status := "not_running", health := "unknown" },
                  chdirs := [s.path, cwd0], invoked := [compose_ps_cmd env s] }
              else
                match j with
                | .jarr (.jobj kvs :: _) =>
                    { st := some (compose_status_of kvs s.name),
                      chdirs := [s.path, cwd0], invoked := [compose_ps_cmd env s] }
                | _ =>
                    { st := none, chdirs := [s.path, cwd0],
                      invoked := [compose_ps_cmd env s] }
        else
          { st := some { name := s.name, status := "error", health := "unknown" },
            chdirs := [s.path, cwd0], invoked := [compose_ps_cmd env s] }

/-- `DockerManager.get_service_status` (lines 433-448): an unknown name
returns `None` before any runtime access. -/
def get_service_status (env : Env) (config : List SvcConfig) (cwd0 : String)
    (name : String) : StatusResult :=
  match get_service_config config name with
  | none => { st := none }
  | some s =>
      if s.type = "dockerfile" then get_dockerfile_status env name
      else if s.type = "docker-compose" then get_compose_status env s cwd0
      else { st := none }

/-- One step of `DockerManager.start_all_services` (lines 560-573): the
accumulator carries the result dict, the tracked dict and the commands
issued so far. -/
def start_all_step (env : Env) (config : List SvcConfig) (cwd0 : String)
    (acc : List (String × Bool) × List (String × TrackInfo) × List Cmd)
    (s : SvcConfig) :
    List (String × Bool) × List (String × TrackInfo) × List Cmd :=
  if s.enabled.getD true then
    let r := start_service env config acc.2.1 cwd0 s.name
    (dinsert acc.1 s.name r.ok, r.tracked, acc.2.2 ++ r.invoked)
  else
    (dinsert acc.1 s.name false, acc.2.1, acc.2.2)

/-- `DockerManager.start_all_services`. -/
def start_all_services (env : Env) (config : List SvcConfig)
    (tracked : List (String × TrackInfo)) (cwd0 : String) :
    List (String × Bool) × List (String × TrackInfo) × List Cmd :=
  config.foldl (start_all_step env config cwd0) ([], tracked, [])

/-- `DockerManager.stop_all_services`. -/
def stop_all_services (env : Env) (config : List SvcConfig)
    (tracked : List (String × TrackInfo)) (cwd0 : String) :
    List (String × Bool) × List (String × TrackInfo) × List Cmd :=
  config.foldl
    (fun acc s =>
      let r := stop_service env config acc.2.1 cwd0 s.name
      (dinsert acc.1 s.name r.ok, r.tracked, acc.2.2 ++ r.invoked))
    ([], tracked, [])

end Legacy

/-- Python `not s.strip()`: the string strips to empty, i.e. it holds
nothing but whitespace. -/
def isBlank (s : String) : Bool := s.data.all (fun c => c.isWhitespace)

/-- `obj.get(key)` restricted to string values (`None` when absent; a
non-string value also maps to `none` in this typed model). -/
def jgetStrOpt (kvs : List (String × PyJson)) (key : String) : Option String :=
  match dlookup kvs key with
  | some (.jstr s) => some s
  | _ => none

/-! ### Core manager and configuration: `src/src/core/` -/

namespace Core

/-- `ServiceConfig` dataclass of `src/src/core/config_manager.py`. -/
structure ServiceConfig where
  name : String
  enabled : Bool
  path : String
  port : Option Int := none
  health_check : Option String := none
  depends_on : Option (List String) := none
deriving DecidableEq, Repr

/-- `ServiceStatus` dataclass of `src/src/core/docker_manager.py`. -/
structure ServiceStatus where
  name : String
  status : String
  container_id : Option String := none
  port : Option String := none
  health : Option String := none
  uptime : Option String := none
  memory_usage : Option String := none
  cpu_usage : Option Int := none
deriving DecidableEq, Repr

/-- External world of the core manager: `run_command` is summarised as an
oracle from (shell command, cwd) to (success, stdout, stderr) — the source
maps both a non-zero exit and a `CalledProcessError` to `success=False`. -/
structure Env where
  basePath : String
  pathExists : String → Bool
  runShell : String → String → Bool × String × String
  jsonLoads : String → Option PyJson

/-- `DockerManager.start_service` (`src/src/core/docker_manager.py` lines
70-85).  Returns the boolean result and the (command, cwd) pairs handed to
the Command Runner.  Note the source performs no `enabled` check here. -/
def start_service (env : Env) (services : List (String × ServiceConfig))
    (name : String) : Bool × List (String × String) :=
  match dlookup services name with
  | none => (false, [])
  | some svc =>
      let path := env.basePath ++ "/" ++ svc.path
      if !env.pathExists path then (false, [])
      else
        let r := env.runShell "docker-compose up -d" path
        (r.1, [("docker-compose up -d", path)])

/-- `DockerManager.stop_service`. -/
def stop_service (env : Env) (services : List (String × ServiceConfig))
    (name : String) : Bool × List (String × String) :=
  match dlookup services name with
  | none => (false, [])
  | some svc =>
      let path := env.basePath ++ "/" ++ svc.path
      if !env.pathExists path then (false, [])
      else
        let r := env.runShell "docker-compose down" path
        (r.1, [("docker-compose down", path)])

/-- `DockerManager.restart_service` (lines 104-109): stop, and only on
success sleep 2 seconds and start. -/
def restart_service (env : Env) (services : List (String × ServiceConfig))
    (name : String) : Bool × List (String × String) × List Nat :=
  let stopR := stop_service env services name
  if stopR.1 then
    let startR := start_service env services name
    (startR.1, stopR.2 ++ startR.2, [2])
  else
    (false, stopR.2, [])

/-- `container.get('Service') == service_name`: Python `==` against a
string is `False` for any non-string value. -/
def service_matches (kvs : List (String × PyJson)) (name : String) : Bool :=
  match dlookup kvs "Service" with
  | some (.jstr s) => s = name
  | _ => false

/-- Status built from a matching `docker-compose ps` entry (lines 137-144). -/
def status_of_container (kvs : List (String × PyJson)) (name : String) :
    ServiceStatus :=
  { name := name,
    status := jgetStr kvs "State" "unknown",
    container_id := jgetStrOpt kvs "ID",
    port := jgetStrOpt kvs "Ports",
    health := some (jgetStr kvs "Health" "unknown") }

/-- The `for container in containers:` loop (lines 136-144).  Only
`json.JSONDecodeError` is caught by the surrounding `try`; an element that
is not a dict raises `AttributeError` at `.get`, which propagates. -/
def scan_containers (name : String) :
    List PyJson → Except String (Option ServiceStatus)
  | [] => .ok none
  | .jobj kvs :: rest =>
      if service_matches kvs name then .ok (some (status_of_container kvs name))
      else scan_containers name rest
  | _ :: _ => .error "AttributeError"

/-- `DockerManager.get_service_status` (lines 111-148).  `Except.error`
models a Python exception escaping the method; `.ok none` is a returned
`None`. -/
def get_service_status (env : Env) (services : List (String × ServiceConfig))
    (name : String) : Except String (Option ServiceStatus) :=
  match dlookup services name with
  | none => .ok none
  | some svc =>
      let path := env.basePath ++ "/" ++ svc.path
      if !env.pathExists path then
        .ok (some { name := name, status := "not_found" })
      else
        let r := env.runShell "docker-compose ps --format json" path
        if !r.1 || isBlank r.2.1 then
          .ok (some { name := name, status := "stopped" })
        else
          match env.jsonLoads r.2.1 with
          | none =>
              -- JSONDecodeError → `pass` → falls through to "unknown"
              .ok (some { name := name, status := "unknown" })
          | some j =>
              -- `if isinstance(containers, dict): containers = [containers]`,
              -- then iterate; iterating a string yields 1-character strings,
              -- iterating a scalar raises TypeError
              match j with
              | .jobj kvs =>
                  match scan_containers name [.jobj kvs] with
                  | .error e => .error e
                  | .ok (some st) => .ok (some st)
                  | .ok none => .ok (some { name := name, status := "unknown" })
              | .jarr xs =>
                  match scan_containers name xs with
                  | .error e => .error e
                  | .ok (some st) => .ok (some st)
                  | .ok none => .ok (some { name := name, status := "unknown" })
              | .jstr s =>
                  if s.isEmpty then .ok (some { name := name, status := "unknown" })
                  else .error "AttributeError"
              | _ => .error "TypeError"

/-- One step of `DockerManager.start_all_services` (lines 159-165): a
disabled service contributes nothing — no command and no result entry. -/
def start_all_step (env : Env) (services : List (String × ServiceConfig))
    (acc : List (String × Bool) × List (String × String))
    (kv : String × ServiceConfig) :
    List (String × Bool) × List (String × String) :=
  if kv.2.enabled then
    let r := start_service env services kv.1
    (dinsert acc.1 kv.1 r.1, acc.2 ++ r.2)
  else acc

/-- `DockerManager.start_all_services`. -/
def start_all_services (env : Env) (services : List (String × ServiceConfig)) :
    List (String × Bool) × List (String × String) :=
  services.foldl (start_all_step env services) ([], [])

/-! #### `src/src/core/config_manager.py`: load/save round trip -/

/-- The keyword names accepted by `ServiceConfig(**service_data)`. -/
def service_config_fields : List String :=
  ["name", "enabled", "path", "port", "health_check", "depends_on"]

/-- Decode a JSON array expected to hold strings (the `depends_on` list). -/
def decode_str_list : List PyJson → Option (List String)
  | [] => some []
  | .jstr s :: rest => (decode_str_list rest).map (s :: ·)
  | _ :: _ => none

/-- `ServiceConfig(**service_data)` as performed by
`ConfigManager.load_config` (lines 52-56): an unexpected key or a missing
required key raises `TypeError` (the surrounding `except` makes the whole
load fail, modelled as `none`).  Values are decoded at the dataclass field
types; the round-trip claims only exercise well-typed values. -/
def service_from_kwargs (d : List (String × PyJson)) : Option Core.ServiceConfig :=
  if !(d.all fun kv => service_config_fields.contains kv.1) then none
  else
    match dlookup d "name", dlookup d "enabled", dlookup d "path" with
    | some (.jstr name), some (.jbool enabled), some (.jstr path) => do
        let port ← match (dlookup d "port").getD .jnull with
          | .jnull => some none
          | .jnum n => some (some n)
          | _ => none
        let hc ← match (dlookup d "health_check").getD .jnull with
          | .jnull => some none
          | .jstr s => some (some s)
          | _ => none
        let dep ← match (dlookup d "depends_on").getD .jnull with
          | .jnull => some none
          | .jarr xs => (decode_str_list xs).map some
          | _ => none
        pure { name := name, enabled := enabled, path := path,
               port := port, health_check := hc, depends_on := dep }
    | _, _, _ => none

/-- `dataclasses.asdict` on one `ServiceConfig`, as serialised by
`ConfigManager.save_config`: every field is emitted, `None` as JSON null. -/
def service_asdict (c : Core.ServiceConfig) : List (String × PyJson) :=
  [("name", .jstr c.name), ("enabled", .jbool c.enabled), ("path", .jstr c.path),
   ("port", match c.port with | none => .jnull | some n => .jnum n),
   ("health_check", match c.health_check with | none => .jnull | some s => .jstr s),
   ("depends_on", match c.depends_on with
     | none => .jnull
     | some l => .jarr (l.map .jstr))]

/-- `ServerConfig` dataclass of `config_manager.py`. -/
structure ServerConfig where
  server_name : String
  environment : String
  services : List Core.ServiceConfig
  backup_path : String
  log_level : String := "INFO"
deriving DecidableEq, Repr

/-- The JSON document written by `ConfigManager.save_config`
(`asdict(self.config)` then `json.dump`): all top-level keys present, the
services as a list of keyword dicts. -/
structure SavedDoc where
  server_name : String
  environment : String
  services : List (List (String × PyJson))
  backup_path : String
  log_level : String

/-- The services loop of `ConfigManager.load_config` (lines 51-56): a
`TypeError` on any entry aborts the whole load. -/
def load_services : List (List (String × PyJson)) → Option (List Core.ServiceConfig)
  | [] => some []
  | d :: rest => do
      let c ← service_from_kwargs d
      let cs ← load_services rest
      pure (c :: cs)

/-- `ConfigManager.load_config` (lines 41-69) applied to a parsed document
whose top-level keys are all present (which is what `save_config` writes;
the source falls back to defaults for missing keys). -/
def load_config (doc : SavedDoc) : Option ServerConfig := do
  let svcs ← load_services doc.services
  pure { server_name := doc.server_name, environment := doc.environment,
         services := svcs, backup_path := doc.backup_path,
         log_level := doc.log_level }

/-- `ConfigManager.save_config` (lines 71-85). -/
def save_config (cfg : ServerConfig) : SavedDoc :=
  { server_name := cfg.server_name, environment := cfg.environment,
    services := cfg.services.map service_asdict,
    backup_path := cfg.backup_path, log_level := cfg.log_level }

end Core

/-! ### Health monitor: `src/monitor.py` (built on the legacy manager) -/

namespace Monitor

/-- One health record appended by `_check_service_health` (lines 90-96).
Timestamps are modelled as natural numbers (seconds); `cpu_usage` is a
float in the source but no claim inspects its value. -/
structure HealthRecord where
  timestamp : Nat
  status : String
  health : String
  memory_usage : Option String := none
  cpu_usage : Option Int := none
deriving DecidableEq, Repr

/-- Lines 97-99 of `_check_service_health`: append, then
`self.health_history[name] = self.health_history[name][-100:]` when the
list exceeds 100 entries. -/
def appendHealthRecord (l : List HealthRecord) (r : HealthRecord) :
    List HealthRecord :=
  let h := l ++ [r]
  if 100 < h.length then h.drop (h.length - 100) else h

/-- Lines 84-99: initialise the per-service list if absent, then append
with the cap. -/
def update_health_history (m : List (String × List HealthRecord))
    (name : String) (r : HealthRecord) : List (String × List HealthRecord) :=
  let cur := (dlookup m name).getD []
  dinsert m name (appendHealthRecord cur r)

/-- `timedelta(minutes=15)` in seconds. -/
def alert_cooldown_seconds : Nat := 15 * 60

/-- `ServiceMonitor._handle_service_issues` (lines 170-185): notify when
no previous alert is recorded for the service or the last one is strictly
older than 15 minutes, recording the notification time; otherwise
suppress.  Returns (notification sent?, updated alert history). -/
def handle_service_issues (alerts : List (String × Nat)) (name : String)
    (now : Nat) : Bool × List (String × Nat) :=
  let key := name ++ "_issues"
  match dlookup alerts key with
  | none => (true, dinsert alerts key now)
  | some last =>
      if alert_cooldown_seconds < now - last then
        (true, dinsert alerts key now)
      else
        (false, alerts)

/-- `ServiceMonitor._clear_service_alerts` (lines 195-202). -/
def clear_service_alerts (alerts : List (String × Nat)) (name : String) :
    List (String × Nat) :=
  derase alerts (name ++ "_issues")

/-- The per-service body of `_check_service_health`: update the health
history (lines 84-99), then dispatch on the computed issue list (lines
123-127).  The issue predicates themselves (lines 100-121) are evaluated
by the caller and passed in.  Returns the new history map, the new alert
history, and whether a notification was sent this tick. -/
def monitor_tick (hist : List (String × List HealthRecord))
    (alerts : List (String × Nat)) (name : String) (r : HealthRecord)
    (issues : List String) (now : Nat) :
    List (String × List HealthRecord) × List (String × Nat) × Bool :=
  let hist1 := update_health_history hist name r
  if issues.isEmpty then
    (hist1, clear_service_alerts alerts name, false)
  else
    let h := handle_service_issues alerts name now
    (hist1, h.2, h.1)

/-- One `services[name]` entry of the summary dict. -/
structure SummaryEntry where
  status : String
  health : String
  uptime : Option String := none
deriving DecidableEq, Repr

/-- The summary dict built by `get_health_summary`. -/
structure HealthSummary where
  total_services : Nat
  running_services : Nat
  healthy_services : Nat
  unhealthy_services : Nat
  stopped_services : Nat
  services : List (String × SummaryEntry)

/-- The per-service body of `ServiceMonitor.get_health_summary` (lines
316-343): a running status is counted healthy or unhealthy, any other
status — including an unobtainable one (`None`) — is counted stopped. -/
def summary_step (env : Legacy.Env) (config : List Legacy.SvcConfig)
    (cwd0 : String) (acc : HealthSummary) (s : Legacy.SvcConfig) :
    HealthSummary :=
  match (Legacy.get_service_status env config cwd0 s.name).st with
  | some st =>
      if st.status = "running" then
        if st.health = "healthy" then
          { acc with
            running_services := acc.running_services + 1,
            healthy_services := acc.healthy_services + 1,
            services := dinsert acc.services s.name
              ⟨st.status, st.health, st.uptime⟩ }
        else
          { acc with
            running_services := acc.running_services + 1,
            unhealthy_services := acc.unhealthy_services + 1,
            services := dinsert acc.services s.name
              ⟨st.status, st.health, st.uptime⟩ }
      else
        { acc with
          stopped_services := acc.stopped_services + 1,
          services := dinsert acc.services s.name
            ⟨st.status, st.health, st.uptime⟩ }
  | none =>
      { acc with
        stopped_services := acc.stopped_services + 1,
        services := dinsert acc.services s.name ⟨"unavailable", "unknown", none⟩ }

/-- `ServiceMonitor.get_health_summary` (lines 307-344). -/
def get_health_summary (env : Legacy.Env) (config : List Legacy.SvcConfig)
    (cwd0 : String) : HealthSummary :=
  config.foldl (summary_step env config cwd0)
    { total_services := config.length, running_services := 0,
      healthy_services := 0, unhealthy_services := 0, stopped_services := 0,
      services := [] }

end Monitor

/-! ### Concrete fixtures used by counterexamples and witnesses -/

/-- The process working directory after replaying a trace of successful
`os.chdir` calls. -/
def finalCwd (cwd0 : String) : List String → String
  | [] => cwd0
  | [d] => d
  | _ :: rest => finalCwd cwd0 rest

/-- A healthy sample record. -/
def sampleRecord : Monitor.HealthRecord :=
  { timestamp := 0, status := "running", health := "healthy" }

/-- Legacy world where every path exists and every command exits 0. -/
def envRunOk : Legacy.Env :=
  { pathExists := fun _ => true, run := fun _ => some { returncode := 0 },
    jsonLoads := fun _ => none }

/-- Legacy world where no path exists. -/
def envNoPath : Legacy.Env :=
  { pathExists := fun _ => false, run := fun _ => none,
    jsonLoads := fun _ => none }

/-- Legacy world where every command exits 1. -/
def envRunFail : Legacy.Env :=
  { pathExists := fun _ => true, run := fun _ => some { returncode := 1 },
    jsonLoads := fun _ => none }

/-- Legacy world where `ps` exits 0 with output that fails JSON decoding. -/
def envParseFail : Legacy.Env :=
  { pathExists := fun _ => true,
    run := fun _ => some { returncode := 0, stdout := "not json" },
    jsonLoads := fun _ => none }

/-- A compose-type service entry of the legacy configuration. -/
def webCompose : Legacy.SvcConfig :=
  { name := "web", type := "docker-compose", path := "/srv/web" }

/-- A compose-type legacy service entry with `enabled` explicitly false. -/
def maildbDisabled : Legacy.SvcConfig :=
  { name := "maildb", type := "docker-compose", path := "/srv/maildb",
    enabled := some false }

/-- Core world where every path exists and every command succeeds. -/
def envC1core : Core.Env :=
  { basePath := "/srv", pathExists := fun _ => true,
    runShell := fun _ _ => (true, "", ""), jsonLoads := fun _ => none }

/-- Core world where no path exists. -/
def envCoreNoPath : Core.Env :=
  { basePath := "/srv", pathExists := fun _ => false,
    runShell := fun _ _ => (true, "", ""), jsonLoads := fun _ => none }

/-- Core world where every command fails. -/
def envCoreFail : Core.Env :=
  { basePath := "/srv", pathExists := fun _ => true,
    runShell := fun _ _ => (false, "", ""), jsonLoads := fun _ => none }

/-- Core world where `ps` succeeds with output that fails JSON decoding. -/
def envCoreParseFail : Core.Env :=
  { basePath := "/srv", pathExists := fun _ => true,
    runShell := fun _ _ => (true, "not json", ""), jsonLoads := fun _ => none }

/-- A disabled core service. -/
def dbDisabled : Core.ServiceConfig :=
  { name := "db", enabled := false, path := "db" }

/-- A saved configuration document with one service entry. -/
def docSample : Core.SavedDoc :=
  { server_name := "srv", environment := "production",
    services := [[("name", .jstr "web"), ("enabled", .jbool true),
      ("path", .jstr "services/web"),
      ("health_check", .jstr "curl -f http://localhost")]],
    backup_path := "./backups", log_level := "INFO" }

/-- The service entry `docSample` holds. -/
def webService : Core.ServiceConfig :=
  { name := "web", enabled := true, path := "services/web",
    health_check := some "curl -f http://localhost" }

/-- The configuration `docSample` loads to. -/
def cfgSample : Core.ServerConfig :=
  { server_name := "srv", environment := "production",
    services := [webService],
    backup_path := "./backups", log_level := "INFO" }

/-! ## Theorems -/

theorem appendHealthRecord_spec (acc : List Monitor.HealthRecord)
    (r : Monitor.HealthRecord) (hacc : acc.length ≤ 100) :
    Monitor.appendHealthRecord acc r =
      (acc ++ [r]).drop (acc.length + 1 - 100) ∧
    (Monitor.appendHealthRecord acc r).length ≤ 100 := by
  unfold Monitor.appendHealthRecord
  by_cases h : 100 < (acc ++ [r]).length
  · have hlen : acc.length = 100 := by simp at h; omega
    simp only [h, if_pos]
    constructor
    · congr 1
      simp [hlen]
    · simp [hlen]
  · simp only [h, if_neg, if_false]
    have hlen : acc.length + 1 ≤ 100 := by simp at h; omega
    constructor
    · have : acc.length + 1 - 100 = 0 := by omega
      simp [this]
    · simpa using hlen

theorem foldl_appendHealthRecord (rs : List Monitor.HealthRecord) :
    ∀ acc : List Monitor.HealthRecord, acc.length ≤ 100 →
      rs.foldl Monitor.appendHealthRecord acc =
        (acc ++ rs).drop (acc.length + rs.length - 100) := by
  induction rs with
  | nil =>
      intro acc hacc
      simp [Nat.sub_eq_zero_of_le hacc]
  | cons r rs ih =>
      intro acc hacc
      simp only [List.foldl_cons, List.length_cons]
      rcases appendHealthRecord_spec acc r hacc with ⟨heq, hle⟩
      rw [ih _ hle, heq]
      by_cases h : acc.length + 1 ≤ 100
      · have h0 : acc.length + 1 - 100 = 0 := by omega
        rw [h0]
        simp only [List.drop_zero, List.length_drop]
        rw [List.append_assoc]
        congr 1
        simp
        omega
      · have hlen : acc.length = 100 := by omega
        have h1 : acc.length + 1 - 100 = 1 := by omega
        rw [h1]
        have hd : ((acc ++ [r]).drop 1).length = 100 := by
          simp [hlen]
        rw [hd]
        have h2 : 100 + rs.length - 100 = rs.length := by omega
        rw [h2]
        have h3 : (1 : Nat) ≤ (acc ++ [r]).length := by simp
        rw [← List.drop_append_of_le_length h3, List.drop_drop,
          List.append_assoc, List.singleton_append]
        congr 1
        omega

theorem dlookup_fold_update (rs : List Monitor.HealthRecord) (name : String) :
    ∀ m : List (String × List Monitor.HealthRecord),
      (dlookup (rs.foldl (fun m r => Monitor.update_health_history m name r) m)
        name).getD [] =
      rs.foldl Monitor.appendHealthRecord ((dlookup m name).getD []) := by
  induction rs with
  | nil => intro m; rfl
  | cons r rs ih =>
      intro m
      simp only [List.foldl_cons]
      rw [ih]
      congr 1
      simp [Monitor.update_health_history, dlookup_dinsert_self]

/-- C3: for every service and every sequence of monitor ticks that each
append a health record, the per-service health history never exceeds 100
entries; it equals the suffix of the 100 most recently appended records in
append order (strict FIFO eviction), so after more than 100 appends its
length is exactly 100. -/
theorem C3_health_history_cap (rs : List Monitor.HealthRecord) (name : String) :
    (dlookup (rs.foldl (fun m r => Monitor.update_health_history m name r) [])
        name).getD [] = rs.drop (rs.length - 100) ∧
    ((dlookup (rs.foldl (fun m r => Monitor.update_health_history m name r) [])
        name).getD []).length = min rs.length 100 := by
  have h := dlookup_fold_update rs name []
  have h2 := foldl_appendHealthRecord rs [] (by simp)
  simp only [dlookup, Option.getD_none] at h
  rw [h2] at h
  simp only [List.nil_append, List.length_nil, Nat.zero_add] at h
  refine ⟨h, ?_⟩
  rw [h, List.length_drop]
  omega

/-- C2: on a service with no recorded alert, an issue tick notifies; a
second issue tick within 15 minutes of that notification is suppressed, so
exactly one notification is sent across the two ticks; an issue tick
strictly after the 15-minute window notifies again; and an issue-free tick
removes the suppression entry, so the very next issue tick notifies
immediately regardless of elapsed time. -/
theorem C2_alert_suppression (alerts0 : List (String × Nat)) (name : String)
    (hist1 hist2 hist3 hist4 : List (String × List Monitor.HealthRecord))
    (r1 r2 r3 r4 : Monitor.HealthRecord)
    (iss1 iss2 iss4 : List String) (t1 : Nat)
    (h0 : dlookup alerts0 (name ++ "_issues") = none)
    (h1 : iss1 ≠ []) (h2 : iss2 ≠ []) (h4 : iss4 ≠ []) :
    (Monitor.monitor_tick hist1 alerts0 name r1 iss1 t1).2.2 = true ∧
    (∀ t2, t1 ≤ t2 → t2 - t1 ≤ Monitor.alert_cooldown_seconds →
      (Monitor.monitor_tick hist2
          (Monitor.monitor_tick hist1 alerts0 name r1 iss1 t1).2.1
          name r2 iss2 t2).2.2 = false) ∧
    (∀ t2, Monitor.alert_cooldown_seconds < t2 - t1 →
      (Monitor.monitor_tick hist2
          (Monitor.monitor_tick hist1 alerts0 name r1 iss1 t1).2.1
          name r2 iss2 t2).2.2 = true) ∧
    (∀ t3 t4,
      (Monitor.monitor_tick hist4
          (Monitor.monitor_tick hist3
              (Monitor.monitor_tick hist1 alerts0 name r1 iss1 t1).2.1
              name r3 [] t3).2.1
          name r4 iss4 t4).2.2 = true) := by
  have hi1 : iss1.isEmpty = false := by
    cases iss1 with
    | nil => exact absurd rfl h1
    | cons a l => rfl
  have hi2 : iss2.isEmpty = false := by
    cases iss2 with
    | nil => exact absurd rfl h2
    | cons a l => rfl
  have hi4 : iss4.isEmpty = false := by
    cases iss4 with
    | nil => exact absurd rfl h4
    | cons a l => rfl
  have htick1 : (Monitor.monitor_tick hist1 alerts0 name r1 iss1 t1).2.1
      = dinsert alerts0 (name ++ "_issues") t1 := by
    simp [Monitor.monitor_tick, hi1, Monitor.handle_service_issues, h0]
  refine ⟨?_, ?_, ?_, ?_⟩
  · simp [Monitor.monitor_tick, hi1, Monitor.handle_service_issues, h0]
  · intro t2 hle hwin
    rw [htick1]
    have hnot : ¬ (Monitor.alert_cooldown_seconds < t2 - t1) := by omega
    simp [Monitor.monitor_tick, hi2, Monitor.handle_service_issues,
      dlookup_dinsert_self, hnot]
  · intro t2 hwin
    rw [htick1]
    simp [Monitor.monitor_tick, hi2, Monitor.handle_service_issues,
      dlookup_dinsert_self, hwin]
  · intro t3 t4
    rw [htick1]
    have hclear : (Monitor.monitor_tick hist3
        (dinsert alerts0 (name ++ "_issues") t1) name r3 [] t3).2.1
        = Monitor.clear_service_alerts (dinsert alerts0 (name ++ "_issues") t1)
            name := by
      simp [Monitor.monitor_tick]
    rw [hclear]
    have hnone : dlookup
        (Monitor.clear_service_alerts (dinsert alerts0 (name ++ "_issues") t1)
          name) (name ++ "_issues") = none := by
      simp [Monitor.clear_service_alerts, dlookup_derase_self]
    simp [Monitor.monitor_tick, hi4, Monitor.handle_service_issues, hnone]

/-- C4: querying the status of a name absent from the registry returns the
designated not-found sentinel — Python `None` — in both managers, without
raising: the legacy manager returns `None` directly, and the core manager's
result is `Except.ok none`, i.e. a normal return, not an exception. -/
theorem C4_status_unknown_name (env : Legacy.Env)
    (config : List Legacy.SvcConfig) (cwd0 name : String)
    (envC : Core.Env) (services : List (String × Core.ServiceConfig))
    (h : Legacy.get_service_config config name = none)
    (hC : dlookup services name = none) :
    (Legacy.get_service_status env config cwd0 name).st = none ∧
    Core.get_service_status envC services name = .ok none := by
  constructor
  · simp [Legacy.get_service_status, h]
  · simp [Core.get_service_status, hC]

/-- C7: in both managers, `restart_service` performs the stop first; when
the stop fails the restart returns failure and its trace is exactly the
stop's trace — the start is never invoked and no settle sleep happens;
when the stop succeeds the code sleeps the fixed 2-second delay and
returns the start's result. -/
theorem C7_restart_sequencing (env : Legacy.Env)
    (config : List Legacy.SvcConfig)
    (tracked : List (String × Legacy.TrackInfo)) (cwd0 name : String)
    (envC : Core.Env) (services : List (String × Core.ServiceConfig))
    (nameC : String) :
    ((Legacy.stop_service env config tracked cwd0 name).ok = false →
      Legacy.restart_service env config tracked cwd0 name =
        { Legacy.stop_service env config tracked cwd0 name with ok := false }) ∧
    ((Legacy.stop_service env config tracked cwd0 name).ok = true →
      (Legacy.restart_service env config tracked cwd0 name).ok =
        (Legacy.start_service env config
          (Legacy.stop_service env config tracked cwd0 name).tracked cwd0
          name).ok ∧
      (Legacy.restart_service env config tracked cwd0 name).slept = [2]) ∧
    ((Core.stop_service envC services nameC).1 = false →
      Core.restart_service envC services nameC =
        (false, (Core.stop_service envC services nameC).2, [])) ∧
    ((Core.stop_service envC services nameC).1 = true →
      (Core.restart_service envC services nameC).1 =
        (Core.start_service envC services nameC).1 ∧
      (Core.restart_service envC services nameC).2.2 = [2]) := by
  refine ⟨?_, ?_, ?_, ?_⟩
  · intro h
    simp [Legacy.restart_service, h]
  · intro h
    simp [Legacy.restart_service, h]
  · intro h
    simp [Core.restart_service, h]
  · intro h
    simp [Core.restart_service, h]

/-- C8: each compose-style operation that changes the working directory
(`_start_compose_service`, `_stop_compose_service`, `_get_compose_status`)
leaves the process back in the original directory on every exit path:
success, command failure, a raising command spawn, and a failing `chdir`. -/
theorem C8_cwd_restored (env : Legacy.Env) (s : Legacy.SvcConfig)
    (tracked : List (String × Legacy.TrackInfo)) (cwd0 : String) :
    finalCwd cwd0 (Legacy.start_compose_service env s tracked cwd0).chdirs = cwd0 ∧
    finalCwd cwd0 (Legacy.stop_compose_service env s tracked cwd0).chdirs = cwd0 ∧
    finalCwd cwd0 (Legacy.get_compose_status env s cwd0).chdirs = cwd0 := by
  refine ⟨?_, ?_, ?_⟩
  · unfold Legacy.start_compose_service
    split
    · rfl
    · split
      · rfl
      · split
        · rfl
        · split <;> rfl
  · unfold Legacy.stop_compose_service
    split
    · rfl
    · split
      · rfl
      · split <;> rfl
  · unfold Legacy.get_compose_status
    split
    · rfl
    · split
      · rfl
      · split
        · split
          · rfl
          · split
            · rfl
            · split <;> rfl
        · rfl

theorem decode_str_list_map (l : List String) :
    Core.decode_str_list (l.map .jstr) = some l := by
  induction l with
  | nil => rfl
  | cons s l ih => simp [Core.decode_str_list, ih]

theorem service_round_trip (c : Core.ServiceConfig) :
    Core.service_from_kwargs (Core.service_asdict c) = some c := by
  rcases c with ⟨name, enabled, path, port, hc, dep⟩
  cases port <;> cases hc <;> cases dep <;>
    simp [Core.service_from_kwargs, Core.service_asdict, dlookup,
      Core.service_config_fields, decode_str_list_map]

theorem load_services_round_trip (cs : List Core.ServiceConfig) :
    Core.load_services (cs.map Core.service_asdict) = some cs := by
  induction cs with
  | nil => rfl
  | cons c cs ih => simp [Core.load_services, service_round_trip, ih]

/-- C9: any configuration that loads successfully, when serialized back by
`save_config` and reloaded, yields the identical configuration — in
particular every `ServiceConfig` keeps its name, enabled flag, path and
health-check fields (load after save after load is the identity). -/
theorem C9_config_round_trip (doc : Core.SavedDoc) (cfg : Core.ServerConfig)
    (h : Core.load_config doc = some cfg) :
    Core.load_config (Core.save_config cfg) = some cfg ∧
    (Core.load_config (Core.save_config cfg)).map
        (fun c => c.services.map
          (fun s => (s.name, s.enabled, s.path, s.health_check))) =
      some (cfg.services.map
        (fun s => (s.name, s.enabled, s.path, s.health_check))) := by
  have hrt : Core.load_config (Core.save_config cfg) = some cfg := by
    simp [Core.load_config, Core.save_config, load_services_round_trip]
  exact ⟨hrt, by rw [hrt]; rfl⟩

/-- Every branch of `summary_step` bumps exactly one of the
running/stopped counters, keeps healthy+unhealthy in step with running,
and writes exactly the service's own key into the services dict. -/
theorem summary_step_shape (env : Legacy.Env) (config : List Legacy.SvcConfig)
    (cwd0 : String) (acc : Monitor.HealthSummary) (c : Legacy.SvcConfig) :
    ∃ v, (Monitor.summary_step env config cwd0 acc c).services =
        dinsert acc.services c.name v ∧
      (Monitor.summary_step env config cwd0 acc c).total_services =
        acc.total_services ∧
      (Monitor.summary_step env config cwd0 acc c).running_services +
          (Monitor.summary_step env config cwd0 acc c).stopped_services =
        acc.running_services + acc.stopped_services + 1 ∧
      (Monitor.summary_step env config cwd0 acc c).healthy_services +
          (Monitor.summary_step env config cwd0 acc c).unhealthy_services +
          acc.running_services =
        (Monitor.summary_step env config cwd0 acc c).running_services +
          acc.healthy_services + acc.unhealthy_services := by
  unfold Monitor.summary_step
  split
  · split
    · split
      · exact ⟨_, rfl, rfl, by simp <;> omega, by simp <;> omega⟩
      · exact ⟨_, rfl, rfl, by simp <;> omega, by simp <;> omega⟩
    · exact ⟨_, rfl, rfl, by simp <;> omega, by simp <;> omega⟩
  · exact ⟨_, rfl, rfl, by simp <;> omega, by simp <;> omega⟩

theorem summary_fold_invariant (env : Legacy.Env)
    (config : List Legacy.SvcConfig) (cwd0 : String)
    (cfgs : List Legacy.SvcConfig) :
    ∀ acc : Monitor.HealthSummary,
      (∀ s ∈ cfgs, s.name ∉ dkeys acc.services) →
      (cfgs.map (·.name)).Nodup →
      (cfgs.foldl (Monitor.summary_step env config cwd0) acc).total_services =
        acc.total_services ∧
      (cfgs.foldl (Monitor.summary_step env config cwd0) acc).running_services +
          (cfgs.foldl (Monitor.summary_step env config cwd0) acc).stopped_services =
        acc.running_services + acc.stopped_services + cfgs.length ∧
      (cfgs.foldl (Monitor.summary_step env config cwd0) acc).healthy_services +
          (cfgs.foldl (Monitor.summary_step env config cwd0) acc).unhealthy_services +
          acc.running_services =
        (cfgs.foldl (Monitor.summary_step env config cwd0) acc).running_services +
          acc.healthy_services + acc.unhealthy_services ∧
      dkeys (cfgs.foldl (Monitor.summary_step env config cwd0) acc).services =
        dkeys acc.services ++ cfgs.map (·.name) := by
  induction cfgs with
  | nil => intro acc _ _; simp; omega
  | cons c cfgs ih =>
      intro acc hfresh hnd
      simp only [List.foldl_cons, List.map_cons, List.nodup_cons] at hnd ⊢
      rcases summary_step_shape env config cwd0 acc c with
        ⟨v, hsv, htot, hrun, hhu⟩
      have hcfresh : c.name ∉ dkeys acc.services := hfresh c (by simp)
      have hkeys1 : dkeys (Monitor.summary_step env config cwd0 acc c).services =
          dkeys acc.services ++ [c.name] := by
        rw [hsv]; exact dkeys_dinsert_of_not_mem _ _ _ hcfresh
      have hfresh' : ∀ s ∈ cfgs,
          s.name ∉ dkeys (Monitor.summary_step env config cwd0 acc c).services := by
        intro s hs
        rw [hkeys1]
        simp only [List.mem_append, List.mem_singleton]
        rintro (hmem | heq)
        · exact hfresh s (by simp [hs]) hmem
        · exact hnd.1 (heq ▸ List.mem_map_of_mem (·.name) hs)
      rcases ih (Monitor.summary_step env config cwd0 acc c) hfresh' hnd.2 with
        ⟨ht, hr, hh, hk⟩
      refine ⟨ht.trans htot, ?_, ?_, ?_⟩
      · rw [hr, hrun, List.length_cons]; omega
      · omega
      · rw [hk, hkeys1, List.append_assoc]; rfl

/-- C10: for a configuration with pairwise-distinct service names, the
health summary satisfies running + stopped = total,
healthy + unhealthy = running, and its services dict has exactly the
configured service names as keys, in order — every service, including one
whose status is unobtainable (counted as stopped), appears exactly once. -/
theorem C10_health_summary_invariants (env : Legacy.Env)
    (config : List Legacy.SvcConfig) (cwd0 : String)
    (hnd : (config.map (·.name)).Nodup) :
    (Monitor.get_health_summary env config cwd0).running_services +
        (Monitor.get_health_summary env config cwd0).stopped_services =
      (Monitor.get_health_summary env config cwd0).total_services ∧
    (Monitor.get_health_summary env config cwd0).healthy_services +
        (Monitor.get_health_summary env config cwd0).unhealthy_services =
      (Monitor.get_health_summary env config cwd0).running_services ∧
    dkeys (Monitor.get_health_summary env config cwd0).services =
      config.map (·.name) := by
  unfold Monitor.get_health_summary
  rcases summary_fold_invariant env config cwd0 config
      { total_services := config.length, running_services := 0,
        healthy_services := 0, unhealthy_services := 0, stopped_services := 0,
        services := [] } (by intro s _ hmem; simp [dkeys] at hmem) hnd with
    ⟨ht, hr, hh, hk⟩
  simp only at ht hr hh hk
  refine ⟨?_, ?_, ?_⟩
  · rw [hr, ht]; omega
  · omega
  · rw [hk]; rfl

theorem start_all_step_fst (env : Legacy.Env) (config : List Legacy.SvcConfig)
    (cwd0 : String)
    (acc : List (String × Bool) × List (String × Legacy.TrackInfo) × List Legacy.Cmd)
    (c : Legacy.SvcConfig) :
    ∃ b, (Legacy.start_all_step env config cwd0 acc c).1 = dinsert acc.1 c.name b := by
  unfold Legacy.start_all_step
  split
  · exact ⟨_, rfl⟩
  · exact ⟨_, rfl⟩

theorem start_all_lookup_frozen (env : Legacy.Env)
    (config : List Legacy.SvcConfig) (cwd0 : String)
    (cfgs : List Legacy.SvcConfig) (name : String) :
    ∀ acc, name ∉ cfgs.map (·.name) →
      dlookup (cfgs.foldl (Legacy.start_all_step env config cwd0) acc).1 name =
        dlookup acc.1 name := by
  induction cfgs with
  | nil => intro acc _; rfl
  | cons c rest ih =>
      intro acc hmem
      simp only [List.map_cons, List.mem_cons] at hmem
      push_neg at hmem
      simp only [List.foldl_cons]
      rw [ih _ hmem.2]
      rcases start_all_step_fst env config cwd0 acc c with ⟨b, hb⟩
      rw [hb, dlookup_dinsert_ne _ _ _ _ (fun h => hmem.1 h.symm)]

theorem start_all_lookup_disabled (env : Legacy.Env)
    (config : List Legacy.SvcConfig) (cwd0 : String)
    (cfgs : List Legacy.SvcConfig) :
    ∀ acc s, s ∈ cfgs → (cfgs.map (·.name)).Nodup → s.enabled = some false →
      dlookup (cfgs.foldl (Legacy.start_all_step env config cwd0) acc).1 s.name =
        some false := by
  induction cfgs with
  | nil => intro acc s hs _ _; exact absurd hs (List.not_mem_nil s)
  | cons c rest ih =>
      intro acc s hs hnd hdis
      simp only [List.map_cons, List.nodup_cons] at hnd
      simp only [List.foldl_cons]
      rcases List.mem_cons.mp hs with rfl | hs'
      · rw [start_all_lookup_frozen env config cwd0 rest s.name _ hnd.1]
        simp [Legacy.start_all_step, hdis, dlookup_dinsert_self]
      · exact ih _ s hs' hnd.2 hdis

/-- C1 counterexample: the core `start_all_services`, run over a registry
holding one disabled service, returns a result map with no entry at all
for that service, where the claim requires an entry whose value is
`false`. -/
theorem C1_counterexample :
    dlookup (Core.start_all_services envC1core [("db", dbDisabled)]).1 "db" =
      none ∧
    ¬ dlookup (Core.start_all_services envC1core [("db", dbDisabled)]).1 "db" =
      some false := by
  constructor
  · rfl
  · intro h
    simp [Core.start_all_services, Core.start_all_step, dbDisabled, dlookup] at h

/-- C1 (amended): for every service with `enabled=false`, neither manager
invokes the Command Runner for it during startAll; the legacy manager
records a `false` result entry for it (for a registry with distinct names
the returned map sends the service name to `false`), while the core
manager's result map contains no entry for the service. -/
theorem C1_disabled_in_start_all
    (env : Legacy.Env) (config : List Legacy.SvcConfig) (cwd0 : String)
    (res : List (String × Bool)) (tr : List (String × Legacy.TrackInfo))
    (cmds : List Legacy.Cmd) (s : Legacy.SvcConfig)
    (tracked0 : List (String × Legacy.TrackInfo))
    (envC : Core.Env) (services : List (String × Core.ServiceConfig))
    (accC : List (String × Bool) × List (String × String))
    (kv : String × Core.ServiceConfig)
    (hs : s.enabled = some false) (hkv : kv.2.enabled = false)
    (hmem : s ∈ config) (hnd : (config.map (·.name)).Nodup) :
    Legacy.start_all_step env config cwd0 (res, tr, cmds) s =
      (dinsert res s.name false, tr, cmds) ∧
    dlookup (Legacy.start_all_services env config tracked0 cwd0).1 s.name =
      some false ∧
    Core.start_all_step envC services accC kv = accC := by
  refine ⟨?_, ?_, ?_⟩
  · simp [Legacy.start_all_step, hs]
  · exact start_all_lookup_disabled env config cwd0 config ([], tracked0, [])
      s hmem hnd hs
  · simp [Core.start_all_step, hkv]

/-- C5 counterexample: with the service in the registry, the ps command
succeeding and its output failing to parse, the legacy manager's
`get_service_status` returns `None` — not a status whose runtime state is
Unknown. -/
theorem C5_counterexample :
    (Legacy.get_service_status envParseFail [webCompose] "/root" "web").st =
      none := by
  rfl

/-- C5 (amended): when the status command succeeds and its output fails
JSON decoding, the core manager's getStatus returns a status `unknown`
without raising, while the legacy manager swallows the parse error and
returns the `None` sentinel instead of an Unknown status; neither
propagates the error to the caller. -/
theorem C5_parse_failure_degrades
    (envC : Core.Env) (services : List (String × Core.ServiceConfig))
    (name : String) (svc : Core.ServiceConfig)
    (hsvc : dlookup services name = some svc)
    (hpath : envC.pathExists (envC.basePath ++ "/" ++ svc.path) = true)
    (hrun : (envC.runShell "docker-compose ps --format json"
      (envC.basePath ++ "/" ++ svc.path)).1 = true)
    (hne : isBlank (envC.runShell "docker-compose ps --format json"
      (envC.basePath ++ "/" ++ svc.path)).2.1 = false)
    (hparse : envC.jsonLoads ((envC.runShell "docker-compose ps --format json"
      (envC.basePath ++ "/" ++ svc.path)).2.1) = none)
    (env : Legacy.Env) (s : Legacy.SvcConfig) (cwd0 : String)
    (hp : env.pathExists s.path = true) :
    Core.get_service_status envC services name =
      .ok (some { name := name, status := "unknown" }) ∧
    (∀ res : Legacy.CmdResult,
      env.run (Legacy.compose_ps_cmd env s) = some res →
      res.returncode = 0 → env.jsonLoads res.stdout = none →
      (Legacy.get_compose_status env s cwd0).st = none) := by
  constructor
  · simp [Core.get_service_status, hsvc, hpath, hrun, hne, hparse]
  · intro res hres hrc hj
    simp [Legacy.get_compose_status, hp, hres, hrc, hj]

/-- C6 counterexample: the core `start_service`, invoked directly on a
disabled service whose directory exists and whose compose-up succeeds,
returns `true` — the claim requires `false` for a disabled service. -/
theorem C6_counterexample :
    (Core.start_service envC1core [("db", dbDisabled)] "db").1 = true := by
  rfl

/-- C6 (amended): the legacy startService returns false — never raising —
for an unknown name, a disabled service, a missing working directory and a
failing compose-up, invoking no command in the first three cases, and on
compose-up success returns true and registers the service as
tracked-running.  The core startService returns false for an unknown
name, a missing directory and a failed compose-up, but performs no
enabled check and maintains no tracked-running registry. -/
theorem C6_start_service_failure_modes
    (env : Legacy.Env) (config : List Legacy.SvcConfig)
    (tracked : List (String × Legacy.TrackInfo)) (cwd0 name : String)
    (envC : Core.Env) (services : List (String × Core.ServiceConfig))
    (nameC : String) :
    (Legacy.get_service_config config name = none →
      Legacy.start_service env config tracked cwd0 name =
        { ok := false, tracked := tracked, invoked := [], chdirs := [] }) ∧
    (∀ s, Legacy.get_service_config config name = some s →
      s.enabled = some false →
      Legacy.start_service env config tracked cwd0 name =
        { ok := false, tracked := tracked, invoked := [], chdirs := [] }) ∧
    (∀ s, Legacy.get_service_config config name = some s →
      s.enabled.getD true = true → s.type = "docker-compose" →
      env.pathExists s.path = false →
      Legacy.start_service env config tracked cwd0 name =
        { ok := false, tracked := tracked, invoked := [], chdirs := [] }) ∧
    (∀ s res, Legacy.get_service_config config name = some s →
      s.enabled.getD true = true → s.type = "docker-compose" →
      env.pathExists s.path = true →
      env.pathExists (s.path ++ "/" ++ s.compose_file) = true →
      env.run (Legacy.compose_up_cmd env s) = some res →
      res.returncode ≠ 0 →
      (Legacy.start_service env config tracked cwd0 name).ok = false) ∧
    (∀ s res, Legacy.get_service_config config name = some s →
      s.enabled.getD true = true → s.type = "docker-compose" →
      env.pathExists s.path = true →
      env.pathExists (s.path ++ "/" ++ s.compose_file) = true →
      env.run (Legacy.compose_up_cmd env s) = some res →
      res.returncode = 0 →
      (Legacy.start_service env config tracked cwd0 name).ok = true ∧
      dlookup (Legacy.start_service env config tracked cwd0 name).tracked
          s.name =
        some (.compose s.path s.compose_file (s.services.getD []))) ∧
    (dlookup services nameC = none →
      Core.start_service envC services nameC = (false, [])) ∧
    (∀ svc, dlookup services nameC = some svc →
      envC.pathExists (envC.basePath ++ "/" ++ svc.path) = false →
      Core.start_service envC services nameC = (false, [])) ∧
    (∀ svc, dlookup services nameC = some svc →
      envC.pathExists (envC.basePath ++ "/" ++ svc.path) = true →
      (envC.runShell "docker-compose up -d"
        (envC.basePath ++ "/" ++ svc.path)).1 = false →
      Core.start_service envC services nameC =
        (false, [("docker-compose up -d", envC.basePath ++ "/" ++ svc.path)])) := by
  refine ⟨?_, ?_, ?_, ?_, ?_, ?_, ?_, ?_⟩
  · intro h
    simp [Legacy.start_service, h]
  · intro s hcfg hdis
    simp [Legacy.start_service, hcfg, hdis]
  · intro s hcfg hen htype hmiss
    simp [Legacy.start_service, Legacy.start_compose_service, hcfg, hen,
      htype, hmiss]
  · intro s res hcfg hen htype hp1 hp2 hrun hrc
    simp [Legacy.start_service, Legacy.start_compose_service, hcfg, hen,
      htype, hp1, hp2, hrun, hrc]
  · intro s res hcfg hen htype hp1 hp2 hrun hrc
    simp [Legacy.start_service, Legacy.start_compose_service, hcfg, hen,
      htype, hp1, hp2, hrun, hrc, dlookup_dinsert_self]
  · intro h
    simp [Core.start_service, h]
  · intro svc hsvc hmiss
    simp [Core.start_service, hsvc, hmiss]
  · intro svc hsvc hp hfail
    simp [Core.start_service, hsvc, hp, hfail]

/-! ## Witnesses -/

theorem C2_alert_suppression_witness :
    (Monitor.monitor_tick [] [] "web" sampleRecord ["down"] 0).2.2 = true ∧
    (Monitor.monitor_tick []
        (Monitor.monitor_tick [] [] "web" sampleRecord ["down"] 0).2.1
        "web" sampleRecord ["down"] 600).2.2 = false ∧
    (Monitor.monitor_tick []
        (Monitor.monitor_tick [] [] "web" sampleRecord ["down"] 0).2.1
        "web" sampleRecord ["down"] 1000).2.2 = true ∧
    (Monitor.monitor_tick []
        (Monitor.monitor_tick []
            (Monitor.monitor_tick [] [] "web" sampleRecord ["down"] 0).2.1
            "web" sampleRecord [] 700).2.1
        "web" sampleRecord ["down"] 701).2.2 = true := by
  have h := C2_alert_suppression [] "web" [] [] [] [] sampleRecord sampleRecord
    sampleRecord sampleRecord ["down"] ["down"] ["down"] 0 rfl
    (by simp) (by simp) (by simp)
  exact ⟨h.1, h.2.1 600 (by omega) (by decide), h.2.2.1 1000 (by decide),
    h.2.2.2 700 701⟩

theorem C4_status_unknown_name_witness :
    (Legacy.get_service_status envParseFail [] "/root" "ghost").st = none ∧
    Core.get_service_status envC1core [] "ghost" = .ok none :=
  C4_status_unknown_name envParseFail [] "/root" "ghost" envC1core [] rfl rfl

theorem C7_restart_sequencing_witness :
    Legacy.restart_service envRunOk [] [] "/root" "web" =
      { Legacy.stop_service envRunOk [] [] "/root" "web" with ok := false } ∧
    (Legacy.restart_service envRunOk [webCompose] [] "/root" "web").slept =
      [2] ∧
    Core.restart_service envC1core [] "ghost" =
      (false, (Core.stop_service envC1core [] "ghost").2, []) ∧
    (Core.restart_service envC1core [("db", dbDisabled)] "db").2.2 = [2] := by
  refine ⟨?_, ?_, ?_, ?_⟩
  · exact (C7_restart_sequencing envRunOk [] [] "/root" "web"
      envC1core [] "ghost").1 rfl
  · exact ((C7_restart_sequencing envRunOk [webCompose] [] "/root" "web"
      envC1core [] "ghost").2.1 rfl).2
  · exact (C7_restart_sequencing envRunOk [] [] "/root" "web"
      envC1core [] "ghost").2.2.1 rfl
  · exact ((C7_restart_sequencing envRunOk [] [] "/root" "web"
      envC1core [("db", dbDisabled)] "db").2.2.2 rfl).2

theorem C9_config_round_trip_witness :
    Core.load_config (Core.save_config cfgSample) = some cfgSample :=
  (C9_config_round_trip docSample cfgSample (by rfl)).1

theorem C10_health_summary_invariants_witness :
    (Monitor.get_health_summary envParseFail [webCompose] "/root").running_services +
        (Monitor.get_health_summary envParseFail [webCompose] "/root").stopped_services =
      (Monitor.get_health_summary envParseFail [webCompose] "/root").total_services ∧
    (Monitor.get_health_summary envParseFail [webCompose] "/root").healthy_services +
        (Monitor.get_health_summary envParseFail [webCompose] "/root").unhealthy_services =
      (Monitor.get_health_summary envParseFail [webCompose] "/root").running_services ∧
    dkeys (Monitor.get_health_summary envParseFail [webCompose] "/root").services =
      [webCompose].map (·.name) :=
  C10_health_summary_invariants envParseFail [webCompose] "/root" (by simp)

theorem C1_disabled_in_start_all_witness :
    dlookup (Legacy.start_all_services envRunOk [maildbDisabled] [] "/root").1
      "maildb" = some false :=
  (C1_disabled_in_start_all envRunOk [maildbDisabled] "/root" [] [] []
    maildbDisabled [] envC1core [("db", dbDisabled)] ([], [])
    ("db", dbDisabled) rfl rfl (by simp) (by simp)).2.1

theorem C5_parse_failure_degrades_witness :
    Core.get_service_status envCoreParseFail [("db", dbDisabled)] "db" =
      .ok (some { name := "db", status := "unknown" }) ∧
    (Legacy.get_compose_status envParseFail webCompose "/root").st = none := by
  have h := C5_parse_failure_degrades envCoreParseFail [("db", dbDisabled)]
    "db" dbDisabled rfl rfl rfl (by decide) rfl envParseFail webCompose
    "/root" rfl
  exact ⟨h.1, h.2 { returncode := 0, stdout := "not json" } rfl rfl rfl⟩

theorem C6_start_service_failure_modes_witness :
    Legacy.start_service envRunOk [] [] "/root" "ghost" =
      { ok := false, tracked := [], invoked := [], chdirs := [] } ∧
    Legacy.start_service envRunOk [maildbDisabled] [] "/root" "maildb" =
      { ok := false, tracked := [], invoked := [], chdirs := [] } ∧
    Legacy.start_service envNoPath [webCompose] [] "/root" "web" =
      { ok := false, tracked := [], invoked := [], chdirs := [] } ∧
    (Legacy.start_service envRunFail [webCompose] [] "/root" "web").ok =
      false ∧
    ((Legacy.start_service envRunOk [webCompose] [] "/root" "web").ok = true ∧
      dlookup (Legacy.start_service envRunOk [webCompose] [] "/root" "web").tracked
        "web" = some (.compose "/srv/web" "docker-compose.yml" [])) ∧
    Core.start_service envC1core [] "ghost" = (false, []) ∧
    Core.start_service envCoreNoPath [("db", dbDisabled)] "db" = (false, []) ∧
    Core.start_service envCoreFail [("db", dbDisabled)] "db" =
      (false, [("docker-compose up -d", "/srv/db")]) := by
  refine ⟨?_, ?_, ?_, ?_, ?_, ?_, ?_, ?_⟩
  · exact (C6_start_service_failure_modes envRunOk [] [] "/root" "ghost"
      envC1core [] "ghost").1 rfl
  · exact (C6_start_service_failure_modes envRunOk [maildbDisabled] []
      "/root" "maildb" envC1core [] "ghost").2.1 maildbDisabled rfl rfl
  · exact (C6_start_service_failure_modes envNoPath [webCompose] [] "/root"
      "web" envC1core [] "ghost").2.2.1 webCompose rfl rfl rfl rfl
  · exact (C6_start_service_failure_modes envRunFail [webCompose] [] "/root"
      "web" envC1core [] "ghost").2.2.2.1 webCompose { returncode := 1 }
      rfl rfl rfl rfl rfl rfl (by decide)
  · exact (C6_start_service_failure_modes envRunOk [webCompose] [] "/root"
      "web" envC1core [] "ghost").2.2.2.2.1 webCompose { returncode := 0 }
      rfl rfl rfl rfl rfl rfl rfl
  · exact (C6_start_service_failure_modes envRunOk [] [] "/root" "ghost"
      envC1core [] "ghost").2.2.2.2.2.1 rfl
  · exact (C6_start_service_failure_modes envRunOk [] [] "/root" "ghost"
      envCoreNoPath [("db", dbDisabled)] "db").2.2.2.2.2.2.1 dbDisabled
      rfl rfl
  · exact (C6_start_service_failure_modes envRunOk [] [] "/root" "ghost"
      envCoreFail [("db", dbDisabled)] "db").2.2.2.2.2.2.2 dbDisabled
      rfl rfl rfl

end ServerAssistant
